import Mathlib

/-!
Verification of the tradex trading bot's decision core.

The definitions below are a shallow embedding of the Python sources:
`config.py`, `position_sizing.py`, `learning_engine.py`, `ml_model.py`,
`src/indicators/indicators.py` and the main trading loop in
`src/core/script.py`.  Prices, percentages and confidences are modelled
over `ℚ`; Python exceptions (such as `ZeroDivisionError`) are modelled by
`Option` results, with `none` standing for a raised exception.
-/

namespace Tradex

/-! ## Configuration constants (config.py) -/

/-- `Config.SL_PCT = 0.05` (5% stop loss). -/
def SL_PCT : ℚ := 5 / 100

/-- `Config.TARGET_PCT = 0.08` (8% target). -/
def TARGET_PCT : ℚ := 8 / 100

/-- `Config.TRAILING_SL_PCT = 0.03` (3% trailing stop loss). -/
def TRAILING_SL_PCT : ℚ := 3 / 100

/-- `Config.MAX_POSITION_PCT = 0.50`. -/
def MAX_POSITION_PCT : ℚ := 1 / 2

/-- `Config.MAX_POSITIONS = 2`. -/
def MAX_POSITIONS : ℕ := 2

/-! ## Position sizing (position_sizing.py) -/

/-- `PositionSizer.min_trades_for_kelly = 10`. -/
def minTradesForKelly : ℕ := 10

/-- `PositionSizer.max_kelly_fraction = 0.25`. -/
def maxKellyFraction : ℚ := 1 / 4

/-- The statistics dictionary returned by
`PositionSizer.get_trade_statistics`. -/
structure TradeStats where
  total_trades : ℕ
  wins : ℕ
  losses : ℕ
  win_rate : ℚ
  avg_win : ℚ
  avg_loss : ℚ
  payoff_ratio : ℚ
  deriving DecidableEq, Repr

/-- `PositionSizer.get_trade_statistics` (position_sizing.py lines 26-73),
applied to the list of `pnl` values of the SELL rows of the trade log.
A positive pnl is a win, a negative pnl is a loss stored as `abs(pnl)`,
a zero pnl is ignored.  Returns `none` when fewer than
`min_trades_for_kelly` closed trades exist. -/
def getTradeStatistics (pnls : List ℚ) : Option TradeStats :=
  let wins := pnls.filter (fun p => 0 < p)
  let losses := (pnls.filter (fun p => p < 0)).map (fun p => |p|)
  let total := wins.length + losses.length
  if total < minTradesForKelly then none
  else
    let win_rate : ℚ := (wins.length : ℚ) / (total : ℚ)
    let avg_win : ℚ := if wins.length ≠ 0 then wins.sum / (wins.length : ℚ) else 0
    let avg_loss : ℚ := if losses.length ≠ 0 then losses.sum / (losses.length : ℚ) else 1
    some { total_trades := total
           wins := wins.length
           losses := losses.length
           win_rate := win_rate
           avg_win := avg_win
           avg_loss := avg_loss
           payoff_ratio := if 0 < avg_loss then avg_win / avg_loss else 1 }

/-- `PositionSizer.calculate_kelly_fraction` (position_sizing.py lines
75-99).  With no statistics the configured default
`Config.MAX_POSITION_PCT` is returned.  Otherwise the code computes
`kelly = (p * b - q) / b`; when `b = 0` that Python expression raises
`ZeroDivisionError`, modelled here as `none`. -/
def calculateKellyFraction (stats : Option TradeStats) : Option ℚ :=
  match stats with
  | none => some MAX_POSITION_PCT
  | some s =>
    let p := s.win_rate
    let q := 1 - p
    let b := s.payoff_ratio
    if b = 0 then none
    else
      let kelly := (p * b - q) / b
      let clamped := max 0 (min kelly maxKellyFraction)
      some (clamped / 2)

/-! ## Stop-loss computation (src/core/script.py lines 780-791) -/

/-- `fixed_sl = buy_price * (1 - Config.SL_PCT)`. -/
def fixedStop (buy_price : ℚ) : ℚ := buy_price * (1 - SL_PCT)

/-- `trailing_sl = highest_price * (1 - Config.TRAILING_SL_PCT)`. -/
def trailingStop (highest_price : ℚ) : ℚ := highest_price * (1 - TRAILING_SL_PCT)

/-- `effective_sl = max(fixed_sl, trailing_sl)`. -/
def effectiveStopBase (buy_price highest_price : ℚ) : ℚ :=
  max (fixedStop buy_price) (trailingStop highest_price)

/-- The effective stop after the ATR adjustment: when `atr > 0` the code
raises the stop to `max(effective_sl, highest_price - atr * 2.0)`
(src/core/script.py lines 787-791). -/
def effectiveStop (buy_price highest_price atr : ℚ) : ℚ :=
  if 0 < atr then
    max (effectiveStopBase buy_price highest_price) (highest_price - atr * 2)
  else effectiveStopBase buy_price highest_price

/-- The per-cycle high-water-mark update
`if current_price > position.highest_price: highest_price = current_price`
(src/core/script.py lines 775-776). -/
def updateHighest (highest_price current_price : ℚ) : ℚ :=
  if highest_price < current_price then current_price else highest_price

/-- `partial_target = buy_price * (1 + Config.TARGET_PCT * 0.5)`
(src/core/script.py line 794). -/
def halfTargetPrice (buy_price : ℚ) : ℚ := buy_price * (1 + TARGET_PCT * (1 / 2))

/-- `target = buy_price * (1 + Config.TARGET_PCT)`. -/
def targetPrice (buy_price : ℚ) : ℚ := buy_price * (1 + TARGET_PCT)

/-- The partial-exit repricing of the remaining position
(src/core/script.py lines 849-850):
`remaining_value = (quantity - exit_quantity) * buy_price;`
`buy_price = remaining_value / (quantity - exit_quantity)`. -/
def partialExitReprice (quantity exit_quantity : ℕ) (buy_price : ℚ) : ℚ :=
  let remaining_value := ((quantity : ℚ) - (exit_quantity : ℚ)) * buy_price
  remaining_value / ((quantity : ℚ) - (exit_quantity : ℚ))

/-! ## Position lifecycle (src/core/script.py) -/

/-- The per-symbol position record kept in the `positions` dictionary
(src/core/script.py lines 738-747 and the broker normalization). -/
structure Position where
  quantity : ℕ
  buy_price : ℚ
  highest_price : ℚ
  current_price : ℚ
  partial_exit_done : Bool
  bot_entered : Bool
  deriving DecidableEq, Repr

/-- The signal vocabulary of `get_optimized_signal`. -/
inductive Signal where
  | STRONG_BUY
  | BUY
  | SELL
  | HOLD
  | WAIT
  deriving DecidableEq, Repr

/-- The exit reasons of the exit logic (src/core/script.py lines
797-810). -/
inductive ExitReason where
  | TRAILING_SL
  | STOP_LOSS
  | TARGET_HIT
  | HALF_TARGET
  | TREND_REVERSAL
  deriving DecidableEq, Repr

/-- One pass of the exit logic of the main loop for a position
(src/core/script.py lines 762-867).  Inputs: the tracked position, the
latest close, the latest ATR, the tactical signal, whether
`broker.place_order(..., "SELL")` returns a truthy order id, and
`Config.PAPER_TRADING`.  Output: the position after the cycle (`none`
when it was deleted) and the exit decision that fired
(reason and `exit_quantity`), if any.

Faithful points: the high-water mark is updated before the stop levels
are computed; the partial-exit flag is assigned inside the decision
block (line 808), BEFORE the order is placed (line 831); the position
is deleted or repriced only under `order_result or Config.PAPER_TRADING`
(line 834); external (`bot_entered = false`) positions are only
tracked, never exited (lines 764-769). -/
def exitStep (pos : Position) (current_price atr : ℚ) (signal : Signal)
    (order_result paper_trading : Bool) :
    Option Position × Option (ExitReason × ℕ) :=
  if ¬ pos.bot_entered then
    let h := updateHighest pos.highest_price current_price
    (some { pos with highest_price := h, current_price := current_price },
     none)
  else
    let quantity := pos.quantity
    let buy_price := pos.buy_price
    let h := updateHighest pos.highest_price current_price
    let fixed_sl := fixedStop buy_price
    let trailing_sl := trailingStop h
    let effective_sl := effectiveStop buy_price h atr
    let target := targetPrice buy_price
    let partial_target := halfTargetPrice buy_price
    -- (exit decision, exit quantity, partial-exit flag after the block)
    let dec : Option ExitReason × ℕ × Bool :=
      if current_price ≤ effective_sl then
        (some (if fixed_sl < trailing_sl then .TRAILING_SL else .STOP_LOSS),
         quantity, pos.partial_exit_done)
      else if target ≤ current_price then
        (some .TARGET_HIT, quantity, pos.partial_exit_done)
      else if ¬ pos.partial_exit_done ∧ partial_target ≤ current_price then
        (some .HALF_TARGET, max 1 (quantity / 2), true)
      else if signal = .SELL then
        (some .TREND_REVERSAL, quantity, pos.partial_exit_done)
      else (none, quantity, pos.partial_exit_done)
    match dec with
    | (none, _, pd) =>
      (some { pos with
                highest_price := h
                current_price := current_price
                partial_exit_done := pd },
       none)
    | (some reason, exit_quantity, pd) =>
      if order_result ∨ paper_trading then
        if exit_quantity < quantity then
          (some { pos with
                    quantity := quantity - exit_quantity
                    buy_price := partialExitReprice quantity exit_quantity buy_price
                    highest_price := h
                    current_price := current_price
                    partial_exit_done := pd },
           some (reason, exit_quantity))
        else
          (none, some (reason, exit_quantity))
      else
        (some { pos with
                  highest_price := h
                  current_price := current_price
                  partial_exit_done := pd },
         some (reason, exit_quantity))

/-! ## Learning engine (learning_engine.py, `should_take_trade`) -/

/-- The win-rate factor of `LearningEngine.should_take_trade`
(learning_engine.py lines 228-237): applied only when
`wins + losses > 5`; `win_rate = wins / (wins + losses)`; the factor is
`0.7` below 40%, `1.2` above 60%, and `1` otherwise. -/
def winRateFactor (wins losses : ℕ) : ℚ :=
  if 5 < wins + losses then
    let win_rate : ℚ := (wins : ℚ) / ((wins : ℚ) + (losses : ℚ))
    if win_rate < 2 / 5 then 7 / 10
    else if 3 / 5 < win_rate then 12 / 10
    else 1
  else 1

/-- The RSI-band factor of `should_take_trade` (lines 239-246):
`1.1` when `best_range[0] ≤ rsi ≤ best_range[1]`, else `0.8`. -/
def rsiFactor (range_lo range_hi rsi : ℚ) : ℚ :=
  if range_lo ≤ rsi ∧ rsi ≤ range_hi then 11 / 10 else 8 / 10

/-- The hour-of-day factor of `should_take_trade` (lines 248-254):
`0.7` for a worst hour, `1.2` for a best hour, `1` otherwise. -/
def hourFactor (hour : ℕ) (worst_hours best_hours : List ℕ) : ℚ :=
  if hour ∈ worst_hours then 7 / 10
  else if hour ∈ best_hours then 12 / 10
  else 1

/-- `LearningEngine.should_take_trade` (learning_engine.py lines
220-259): base confidence `1.0` multiplied by the three factors;
the decision is `confidence ≥ 0.8`.  Returns
`(should_trade, confidence)`. -/
def shouldTakeTrade (sig_wins sig_losses : ℕ) (range_lo range_hi rsi : ℚ)
    (hour : ℕ) (worst_hours best_hours : List ℕ) : Bool × ℚ :=
  let confidence : ℚ :=
    1 * winRateFactor sig_wins sig_losses * rsiFactor range_lo range_hi rsi *
      hourFactor hour worst_hours best_hours
  (decide ((4 : ℚ) / 5 ≤ confidence), confidence)

/-! ## ML predictor (ml_model.py) -/

/-- `MLPredictor._simple_predict` (ml_model.py lines 221-249): the
rule-based fallback.  Score starts at 0.5, is nudged by the RSI zone
and the MACD sign, clamped to `[0, 1]`; the confidence is
`|score − 0.5| * 2`.  Returns `(score, confidence)`. -/
def simplePredict (rsi macd macd_signal : ℚ) : ℚ × ℚ :=
  let score : ℚ := 1 / 2
  let score :=
    if 30 ≤ rsi ∧ rsi ≤ 40 then score + 15 / 100
    else if rsi < 30 then score + 1 / 10
    else if 70 < rsi then score - 15 / 100
    else score
  let score := if macd_signal < macd then score + 1 / 10 else score - 1 / 10
  let score := max 0 (min 1 score)
  (score, |score - 1 / 2| * 2)

/-! ## Entry gating (src/core/script.py lines 687-726) -/

/-- The confidence gate of the entry path.  After the learning engine
and the ML model have produced `(should_trade, learn_confidence)` and
`(ml_take_trade, ml_confidence)`, the code computes
`combined_confidence = (learn_confidence + ml_confidence) / 2`
(line 699); in TEST MODE it overwrites it with `0.75` and bypasses the
gate (lines 707-709); otherwise it skips the trade when
`not should_trade or not ml_take_trade` (line 710).  The result is the
confidence handed to `calculate_position_size` (`none` = trade
skipped, no BUY order placed). -/
def entryGate (test_mode should_trade ml_take_trade : Bool)
    (learn_confidence ml_confidence : ℚ) : Option ℚ :=
  let combined_confidence := (learn_confidence + ml_confidence) / 2
  if test_mode then some (75 / 100)
  else if ¬ should_trade ∨ ¬ ml_take_trade then none
  else some combined_confidence

/-! ## Multi-timeframe trend classifier (src/indicators/indicators.py) -/

/-- The per-timeframe trend label. -/
inductive Trend where
  | BULLISH
  | BEARISH
  | NEUTRAL
  deriving DecidableEq, Repr

/-- The combined multi-timeframe signal. -/
inductive MTFSignal where
  | STRONG_BULLISH
  | BULLISH
  | BEARISH
  | NEUTRAL
  deriving DecidableEq, Repr

/-- The data `get_daily_trend` reads from the fetched daily bars: the
length of the series and the latest indicator values. -/
structure DailyBars where
  len : ℕ
  close : ℚ
  sma_20 : ℚ
  sma_50 : ℚ
  macd : ℚ
  macd_signal : ℚ
  deriving DecidableEq, Repr

/-- The data `get_hourly_trend` reads from the fetched hourly bars. -/
structure HourlyBars where
  len : ℕ
  ema_9 : ℚ
  ema_21 : ℚ
  macd : ℚ
  macd_signal : ℚ
  deriving DecidableEq, Repr

/-- `MultiTimeframeAnalyzer.get_daily_trend` (indicators.py lines
102-157).  `none` models a data-source failure or an empty download
(all retries exhausted, or `df is None or df.empty`); a series shorter
than 20 bars also degrades to NEUTRAL.  Otherwise: BULLISH when
`close > sma_20 > sma_50` and `macd > macd_signal`, BEARISH on the
mirror condition, NEUTRAL otherwise. -/
def getDailyTrend (fetch : Option DailyBars) : Trend :=
  match fetch with
  | none => .NEUTRAL
  | some d =>
    if d.len < 20 then .NEUTRAL
    else if d.sma_20 < d.close ∧ d.sma_50 < d.sma_20 ∧ d.macd_signal < d.macd then .BULLISH
    else if d.close < d.sma_20 ∧ d.sma_20 < d.sma_50 ∧ d.macd < d.macd_signal then .BEARISH
    else .NEUTRAL

/-- `MultiTimeframeAnalyzer.get_hourly_trend` (indicators.py lines
159-215): same failure degradation; BULLISH when `ema_9 > ema_21` and
`macd > macd_signal`, BEARISH on the mirror, NEUTRAL otherwise. -/
def getHourlyTrend (fetch : Option HourlyBars) : Trend :=
  match fetch with
  | none => .NEUTRAL
  | some h =>
    if h.len < 20 then .NEUTRAL
    else if h.ema_21 < h.ema_9 ∧ h.macd_signal < h.macd then .BULLISH
    else if h.ema_9 < h.ema_21 ∧ h.macd < h.macd_signal then .BEARISH
    else .NEUTRAL

/-- `MultiTimeframeAnalyzer.get_multi_timeframe_signal` (indicators.py
lines 217-240): the fixed combination table over the two trend
labels. -/
def getMultiTimeframeSignal (daily : Option DailyBars) (hourly : Option HourlyBars) :
    MTFSignal :=
  let daily_trend := getDailyTrend daily
  let hourly_trend := getHourlyTrend hourly
  if daily_trend = .BULLISH ∧ hourly_trend = .BULLISH then .STRONG_BULLISH
  else if daily_trend = .BULLISH ∧ hourly_trend = .NEUTRAL then .BULLISH
  else if daily_trend = .BEARISH ∧ hourly_trend = .BEARISH then .BEARISH
  else .NEUTRAL

/-! ## The positions dictionary (src/core/script.py) -/

/-- The `positions` dictionary (symbol → position), modelled as an
association list whose key list is duplicate-free in every reachable
state. -/
def dictKeys (positions : List (String × Position)) : List String :=
  positions.map Prod.fst

/-- The merge performed by the periodic broker sync for a symbol the
bot already tracks (src/core/script.py lines 509-518): refresh
`current_price`, raise `highest_price` when the broker price is higher,
and adopt the broker quantity when it changed. -/
def mergeBrokerPosition (pos broker_pos : Position) : Position :=
  let pos := { pos with current_price := broker_pos.current_price }
  let pos :=
    if pos.highest_price < broker_pos.current_price then
      { pos with highest_price := broker_pos.current_price }
    else pos
  if broker_pos.quantity ≠ pos.quantity then { pos with quantity := broker_pos.quantity }
  else pos

/-- One iteration of the broker-sync loop (src/core/script.py lines
508-522): a known symbol is updated in place, an unknown symbol is
adopted as a new (external) position — with no bound check. -/
def syncUpdate (positions : List (String × Position)) (symbol : String)
    (broker_pos : Position) : List (String × Position) :=
  if symbol ∈ dictKeys positions then
    positions.map (fun p => if p.1 = symbol then (p.1, mergeBrokerPosition p.2 broker_pos) else p)
  else positions ++ [(symbol, broker_pos)]

/-- The periodic broker position sync (src/core/script.py lines
504-538): every broker position is merged or adopted, then external
positions that no longer exist at the broker are removed
(bot-entered positions are kept). -/
def syncStep (positions : List (String × Position))
    (broker_positions : List (String × Position)) : List (String × Position) :=
  let updated := broker_positions.foldl (fun acc sp => syncUpdate acc sp.1 sp.2) positions
  updated.filter (fun p => (broker_positions.map Prod.fst).contains p.1 || p.2.bot_entered)

/-- A sample externally-owned position (as `normalize_broker_position`
produces: `bot_entered = False`), used for concrete evaluations. -/
def sampleExternalPosition : Position :=
  { quantity := 1, buy_price := 100, highest_price := 100, current_price := 100,
    partial_exit_done := false, bot_entered := false }

/-- The FLAT→OPEN entry path (src/core/script.py lines 656-663 and
736-747): runs only when the symbol has no position and the signal is a
buy; skips when `len(positions) ≥ Config.MAX_POSITIONS`; inserts the
new position only when all downstream gates pass and the BUY order
succeeds. -/
def entryStep (positions : List (String × Position)) (symbol : String)
    (signal_is_buy gates_approve order_ok : Bool) (new_pos : Position) :
    List (String × Position) :=
  if symbol ∈ dictKeys positions then positions
  else if ¬ signal_is_buy then positions
  else if MAX_POSITIONS ≤ positions.length then positions
  else if gates_approve ∧ order_ok then positions ++ [(symbol, new_pos)]
  else positions

end Tradex

namespace Tradex

/-! ## Theorems for the Position Sizer claims -/

/-- C7: for every partial exit with `exit_quantity < quantity`, the
recomputed "weighted average" entry price of the remaining position
equals the original entry price exactly: the repricing is a no-op. -/
theorem partialExitReprice_is_noop (quantity exit_quantity : ℕ) (buy_price : ℚ)
    (h : exit_quantity < quantity) :
    partialExitReprice quantity exit_quantity buy_price = buy_price := by
  have hq : (exit_quantity : ℚ) < (quantity : ℚ) := by exact_mod_cast h
  have hne : (quantity : ℚ) - (exit_quantity : ℚ) ≠ 0 := sub_ne_zero.mpr (ne_of_gt hq)
  unfold partialExitReprice
  exact mul_div_cancel_left₀ buy_price hne

/-- Witness for C7 at the concrete partial exit 10 units, 5 sold, entry 100. -/
theorem partialExitReprice_is_noop_witness :
    partialExitReprice 10 5 (100 : ℚ) = 100 :=
  partialExitReprice_is_noop 10 5 100 (by decide)

/-- C2 counterexample: on a trade history with fewer than 10 closed trades
(here: the empty history) `calculate_kelly_fraction` returns the
configured default `Config.MAX_POSITION_PCT = 0.5`, which is NOT within
`[0, max_kelly_fraction / 2] = [0, 0.125]`. -/
theorem kelly_default_exceeds_half_kelly_bound :
    calculateKellyFraction (getTradeStatistics []) = some MAX_POSITION_PCT ∧
    ¬ (MAX_POSITION_PCT ≤ maxKellyFraction / 2) := by
  constructor
  · rfl
  · unfold MAX_POSITION_PCT maxKellyFraction
    norm_num

/-- C2 (amended): for every trade history with at least the minimum 10
closed trades, every fraction that `calculate_kelly_fraction` actually
returns lies within `[0, max_kelly_fraction / 2] = [0, 0.125]`.
(The sub-minimum fallback returns `MAX_POSITION_PCT = 0.5`, outside
that range; and for payoff ratio 0 the function raises instead of
returning.) -/
theorem kelly_fraction_bounds (pnls : List ℚ) (s : TradeStats) (f : ℚ)
    (hs : getTradeStatistics pnls = some s)
    (hf : calculateKellyFraction (some s) = some f) :
    0 ≤ f ∧ f ≤ maxKellyFraction / 2 := by
  unfold calculateKellyFraction at hf
  by_cases hb : s.payoff_ratio = 0
  · simp [hb] at hf
  · simp only [hb, if_false] at hf
    have hf2 : max 0 (min ((s.win_rate * s.payoff_ratio - (1 - s.win_rate)) / s.payoff_ratio)
        maxKellyFraction) / 2 = f := by
      simpa using hf
    constructor
    · rw [← hf2]
      positivity
    · rw [← hf2]
      have h1 : min ((s.win_rate * s.payoff_ratio - (1 - s.win_rate)) / s.payoff_ratio)
          maxKellyFraction ≤ maxKellyFraction := min_le_right _ _
      have h2 : max 0 (min ((s.win_rate * s.payoff_ratio - (1 - s.win_rate)) / s.payoff_ratio)
          maxKellyFraction) ≤ maxKellyFraction := by
        apply max_le _ h1
        unfold maxKellyFraction
        norm_num
      linarith

/-- Witness for C2 at a concrete 10-trade history (5 wins of 10, 5
losses of 5): the returned half-Kelly fraction is 1/8, within bounds. -/
theorem kelly_fraction_bounds_witness :
    0 ≤ (1 / 8 : ℚ) ∧ (1 / 8 : ℚ) ≤ maxKellyFraction / 2 :=
  kelly_fraction_bounds [10, 10, 10, 10, 10, -5, -5, -5, -5, -5]
    { total_trades := 10, wins := 5, losses := 5, win_rate := 1 / 2,
      avg_win := 10, avg_loss := 5, payoff_ratio := 2 }
    (1 / 8)
    (by norm_num [getTradeStatistics, minTradesForKelly])
    (by norm_num [calculateKellyFraction, maxKellyFraction])

/-- C6: across consecutive cycles the high-water mark never decreases,
the trailing stop is monotone in the high-water mark (so it is
non-decreasing over the position's lifetime), and in every cycle the
effective stop — `max(fixed, trailing)`, possibly raised further by the
ATR-based stop — is at least the fixed stop. -/
theorem trailing_stop_monotone_and_dominates_fixed
    (buy_price h h' current atr : ℚ) (hmono : h ≤ h') :
    h ≤ updateHighest h current ∧
    trailingStop h ≤ trailingStop h' ∧
    effectiveStopBase buy_price h = max (fixedStop buy_price) (trailingStop h) ∧
    effectiveStopBase buy_price h ≤ effectiveStop buy_price h atr ∧
    fixedStop buy_price ≤ effectiveStop buy_price h atr := by
  refine ⟨?_, ?_, rfl, ?_, ?_⟩
  · unfold updateHighest
    split
    · next hc => exact le_of_lt hc
    · exact le_refl h
  · unfold trailingStop TRAILING_SL_PCT
    have hfac : (0 : ℚ) ≤ 1 - 3 / 100 := by norm_num
    exact mul_le_mul_of_nonneg_right hmono hfac
  · unfold effectiveStop
    split
    · exact le_max_left _ _
    · exact le_refl _
  · unfold effectiveStop
    split
    · exact le_trans (le_max_left _ _) (le_max_left _ _)
    · exact le_max_left _ _

/-- Witness for C6 at entry 100, high-water mark rising 100 → 110,
ATR 2. -/
theorem trailing_stop_monotone_and_dominates_fixed_witness :
    (100 : ℚ) ≤ updateHighest 100 110 ∧
    trailingStop 100 ≤ trailingStop 110 ∧
    effectiveStopBase 100 100 = max (fixedStop 100) (trailingStop 100) ∧
    effectiveStopBase 100 100 ≤ effectiveStop 100 100 2 ∧
    fixedStop 100 ≤ effectiveStop 100 100 2 :=
  trailing_stop_monotone_and_dominates_fixed 100 100 110 110 2 (by norm_num)

/-- C1: evaluation of the exit cycle at a failing input.  A bot-owned
position (10 units, entry 100, high-water mark 100, partial exit not yet
done) sees price 104.5: the partial-target exit (104) fires and the SELL
order FAILS (`order_result = false`, live trading).  The position is
kept and its quantity and entry price are unchanged, but it IS mutated:
`partial_exit_done` has been set to `true` before the order was placed,
and the high-water mark has risen to 104.5 — so the partial exit does
NOT retry on the next cycle, contrary to the fail-safe the claim
states. -/
theorem exit_order_failure_mutates_position :
    exitStep
      { quantity := 10, buy_price := 100, highest_price := 100, current_price := 100,
        partial_exit_done := false, bot_entered := true }
      (209 / 2) 0 .HOLD false false
    = (some { quantity := 10, buy_price := 100, highest_price := 209 / 2,
              current_price := 209 / 2, partial_exit_done := true, bot_entered := true },
       some (.HALF_TARGET, 5)) := by
  norm_num [exitStep, updateHighest, fixedStop, trailingStop, effectiveStop,
    effectiveStopBase, targetPrice, halfTargetPrice, SL_PCT, TRAILING_SL_PCT, TARGET_PCT]

/-- C4 counterexample: with `Config.TEST_MODE = True` the entry path
proceeds to place a BUY order even though BOTH estimators veto
(`should_trade = ml_take_trade = False`), and the confidence handed to
the position sizer is the forced `0.75`, not the arithmetic mean of
the two confidence measures (here `(0 + 0) / 2 = 0`). -/
theorem entry_gate_test_mode_bypasses_vetoes :
    entryGate true false false 0 0 = some (75 / 100) ∧
    ¬ ((75 : ℚ) / 100 = (0 + 0) / 2) := by
  constructor
  · rfl
  · norm_num

/-- C4 (amended): outside TEST MODE, a BUY order is attempted exactly
when both the learning estimator's `should_trade` and the classifier's
`ml_take_trade` are true — either estimator alone vetoes — and the
confidence handed to the Position Sizer is the arithmetic mean of the
two estimators' confidence measures. -/
theorem entry_gate_requires_both_estimators (should_trade ml_take_trade : Bool)
    (learn_confidence ml_confidence c : ℚ) :
    (entryGate false should_trade ml_take_trade learn_confidence ml_confidence = some c →
      should_trade = true ∧ ml_take_trade = true ∧
        c = (learn_confidence + ml_confidence) / 2) ∧
    (should_trade = true → ml_take_trade = true →
      entryGate false should_trade ml_take_trade learn_confidence ml_confidence =
        some ((learn_confidence + ml_confidence) / 2)) := by
  cases should_trade <;> cases ml_take_trade <;>
    simp [entryGate, eq_comm]

/-- Witness for C4: both estimators approve with confidences 1 and 1/2;
the trade proceeds with the mean. -/
theorem entry_gate_requires_both_estimators_witness :
    entryGate false true true 1 (1 / 2) = some ((1 + 1 / 2) / 2) :=
  (entry_gate_requires_both_estimators true true 1 (1 / 2) ((1 + 1 / 2) / 2)).2 rfl rfl

/-- C5 counterexample: a signal type with EXACTLY 5 closed trades
(1 win, 4 losses, win rate 20% < 40%) does NOT get the win-rate factor:
the code guard is `wins + losses > 5`, so the factor is skipped at 5
trades, contrary to the claim that it applies once ≥ 5 trades exist. -/
theorem win_rate_factor_skipped_at_five_trades :
    winRateFactor 1 4 = 1 ∧ ((1 : ℚ) / ((1 : ℚ) + (4 : ℚ)) < 2 / 5) := by
  constructor
  · norm_num [winRateFactor]
  · norm_num

/-- C5 (amended): the win-rate factor (0.7 when the signal type's
historical win rate is below 40%, 1.2 when above 60%) is applied
exactly when MORE than 5 closed trades of that signal type exist
(i.e. at least 6); with 5 or fewer trades the factor is 1. -/
theorem win_rate_factor_applied_above_five_trades (wins losses : ℕ) :
    (5 < wins + losses →
      (((wins : ℚ) / ((wins : ℚ) + (losses : ℚ)) < 2 / 5 → winRateFactor wins losses = 7 / 10) ∧
       (3 / 5 < (wins : ℚ) / ((wins : ℚ) + (losses : ℚ)) → winRateFactor wins losses = 12 / 10))) ∧
    (wins + losses ≤ 5 → winRateFactor wins losses = 1) := by
  refine ⟨fun h6 => ⟨fun hlo => ?_, fun hhi => ?_⟩, fun h5 => ?_⟩
  · simp only [winRateFactor]
    rw [if_pos h6, if_pos hlo]
  · simp only [winRateFactor]
    rw [if_pos h6, if_neg (by linarith), if_pos hhi]
  · simp only [winRateFactor]
    rw [if_neg (by omega)]

/-- Witness for C5 at 6 closed trades (1 win, 5 losses, win rate
1/6 < 40%): the 0.7 factor applies. -/
theorem win_rate_factor_applied_above_five_trades_witness :
    winRateFactor 1 5 = 7 / 10 :=
  ((win_rate_factor_applied_above_five_trades 1 5).1 (by norm_num)).1 (by norm_num)

/-- Each multiplicative factor of `should_take_trade` is bounded:
the win-rate factor lies in `[0.7, 1.2]`. -/
theorem winRateFactor_bounds (wins losses : ℕ) :
    7 / 10 ≤ winRateFactor wins losses ∧ winRateFactor wins losses ≤ 12 / 10 := by
  simp only [winRateFactor]
  split_ifs <;> norm_num

/-- The RSI-band factor lies in `[0.8, 1.1]`. -/
theorem rsiFactor_bounds (range_lo range_hi rsi : ℚ) :
    8 / 10 ≤ rsiFactor range_lo range_hi rsi ∧ rsiFactor range_lo range_hi rsi ≤ 11 / 10 := by
  unfold rsiFactor
  split_ifs <;> norm_num

/-- The hour-of-day factor lies in `[0.7, 1.2]`. -/
theorem hourFactor_bounds (hour : ℕ) (worst_hours best_hours : List ℕ) :
    7 / 10 ≤ hourFactor hour worst_hours best_hours ∧
    hourFactor hour worst_hours best_hours ≤ 12 / 10 := by
  unfold hourFactor
  split_ifs <;> norm_num

/-- C10 counterexample: the combined confidence can EXCEED 1, so it is
not within the 0–1 range the Position Sizer assumes.  With a signal
type at 6 wins / 0 losses (win rate 100% > 60%: factor 1.2), RSI 35
inside the optimal band `[30, 40]` (factor 1.1), and the current hour
among the best hours (factor 1.2), the learning confidence is 1.584;
the heuristic classifier fallback at RSI 35 with bullish MACD yields
confidence 0.5; the arithmetic mean is 1.042 > 1. -/
theorem combined_confidence_exceeds_one :
    ((shouldTakeTrade 6 0 30 40 35 10 [] [10]).2 + (simplePredict 35 1 0).2) / 2 =
      1042 / 1000 ∧
    ¬ (((shouldTakeTrade 6 0 30 40 35 10 [] [10]).2 + (simplePredict 35 1 0).2) / 2 ≤ 1) := by
  have hval : ((shouldTakeTrade 6 0 30 40 35 10 [] [10]).2 +
      (simplePredict 35 1 0).2) / 2 = 1042 / 1000 := by
    norm_num [shouldTakeTrade, winRateFactor, rsiFactor, hourFactor, simplePredict,
      abs_of_nonneg]
  refine ⟨hval, ?_⟩
  rw [hval]
  norm_num

/-- C10 (amended): for every trade-history state, indicator input and
classifier confidence in `[0, 1]`, the combined confidence is bounded
by construction of its multiplicative factors: it always lies within
`[0, 1.292]`.  It is NOT always within `[0, 1]`: the learning factor
product can reach `1.2 × 1.1 × 1.2 = 1.584`. -/
theorem combined_confidence_bounded (sig_wins sig_losses : ℕ)
    (range_lo range_hi rsi : ℚ) (hour : ℕ) (worst_hours best_hours : List ℕ)
    (ml_confidence : ℚ) (hml0 : 0 ≤ ml_confidence) (hml1 : ml_confidence ≤ 1) :
    0 ≤ ((shouldTakeTrade sig_wins sig_losses range_lo range_hi rsi hour
            worst_hours best_hours).2 + ml_confidence) / 2 ∧
    ((shouldTakeTrade sig_wins sig_losses range_lo range_hi rsi hour
        worst_hours best_hours).2 + ml_confidence) / 2 ≤ 1292 / 1000 := by
  have h1 := winRateFactor_bounds sig_wins sig_losses
  have h2 := rsiFactor_bounds range_lo range_hi rsi
  have h3 := hourFactor_bounds hour worst_hours best_hours
  have hsnd : (shouldTakeTrade sig_wins sig_losses range_lo range_hi rsi hour
      worst_hours best_hours).2 =
      1 * winRateFactor sig_wins sig_losses * rsiFactor range_lo range_hi rsi *
        hourFactor hour worst_hours best_hours := rfl
  set f1 := winRateFactor sig_wins sig_losses with hf1
  set f2 := rsiFactor range_lo range_hi rsi with hf2
  set f3 := hourFactor hour worst_hours best_hours with hf3
  have hpos1 : (0 : ℚ) ≤ f1 := by linarith [h1.1]
  have hpos2 : (0 : ℚ) ≤ f2 := by linarith [h2.1]
  have hpos3 : (0 : ℚ) ≤ f3 := by linarith [h3.1]
  have h12 : f1 * f2 ≤ (12 / 10) * (11 / 10) :=
    mul_le_mul h1.2 h2.2 hpos2 (by norm_num)
  have h123 : f1 * f2 * f3 ≤ (12 / 10) * (11 / 10) * (12 / 10) :=
    mul_le_mul h12 h3.2 hpos3 (by positivity)
  have hnn : (0 : ℚ) ≤ f1 * f2 * f3 := by positivity
  rw [hsnd]
  constructor
  · nlinarith
  · nlinarith

/-- Witness for C10 with no learned statistics (all factors neutral
except the RSI band) and classifier confidence 1. -/
theorem combined_confidence_bounded_witness :
    0 ≤ ((shouldTakeTrade 0 0 30 40 35 10 [] []).2 + 1) / 2 ∧
    ((shouldTakeTrade 0 0 30 40 35 10 [] []).2 + 1) / 2 ≤ 1292 / 1000 :=
  combined_confidence_bounded 0 0 30 40 35 10 [] [] 1 (by norm_num) (by norm_num)

/-- C9: the multi-timeframe signal is the fixed combination table over
the two trend labels (both bullish → STRONG_BULLISH; daily bullish +
hourly neutral → BULLISH; both bearish → BEARISH; anything else →
NEUTRAL, as the three iffs jointly force), and a data-source failure
(`none`) or a series shorter than the 20-bar warm-up yields NEUTRAL
for that timeframe instead of an error. -/
theorem mtf_combination_table (daily : Option DailyBars) (hourly : Option HourlyBars) :
    (getMultiTimeframeSignal daily hourly = .STRONG_BULLISH ↔
      getDailyTrend daily = .BULLISH ∧ getHourlyTrend hourly = .BULLISH) ∧
    (getMultiTimeframeSignal daily hourly = .BULLISH ↔
      getDailyTrend daily = .BULLISH ∧ getHourlyTrend hourly = .NEUTRAL) ∧
    (getMultiTimeframeSignal daily hourly = .BEARISH ↔
      getDailyTrend daily = .BEARISH ∧ getHourlyTrend hourly = .BEARISH) ∧
    getDailyTrend none = .NEUTRAL ∧ getHourlyTrend none = .NEUTRAL ∧
    (∀ d : DailyBars, d.len < 20 → getDailyTrend (some d) = .NEUTRAL) ∧
    (∀ h : HourlyBars, h.len < 20 → getHourlyTrend (some h) = .NEUTRAL) := by
  refine ⟨?_, ?_, ?_, rfl, rfl, ?_, ?_⟩
  · cases hd : getDailyTrend daily <;> cases hh : getHourlyTrend hourly <;>
      simp [getMultiTimeframeSignal, hd, hh]
  · cases hd : getDailyTrend daily <;> cases hh : getHourlyTrend hourly <;>
      simp [getMultiTimeframeSignal, hd, hh]
  · cases hd : getDailyTrend daily <;> cases hh : getHourlyTrend hourly <;>
      simp [getMultiTimeframeSignal, hd, hh]
  · intro d hlen
    simp [getDailyTrend, hlen]
  · intro h hlen
    simp [getHourlyTrend, hlen]

/-- Witness for C9: a 10-bar daily series is inside the warm-up region
and degrades to NEUTRAL. -/
theorem mtf_combination_table_witness :
    getDailyTrend (some ⟨10, 0, 0, 0, 0, 0⟩) = .NEUTRAL :=
  (mtf_combination_table none none).2.2.2.2.2.1 ⟨10, 0, 0, 0, 0, 0⟩ (by norm_num)

/-- The broker-sync per-symbol merge never changes the key list. -/
theorem dictKeys_map_merge (m : List (String × Position)) (k : String) (v : Position) :
    dictKeys (m.map (fun p => if p.1 = k then (p.1, mergeBrokerPosition p.2 v) else p)) =
      dictKeys m := by
  induction m with
  | nil => rfl
  | cons p t ih =>
    by_cases hp : p.1 = k <;> simp [dictKeys, hp] <;>
      simpa [dictKeys] using ih

/-- One broker-sync iteration preserves key uniqueness. -/
theorem nodup_dictKeys_syncUpdate (m : List (String × Position)) (k : String)
    (v : Position) (h : (dictKeys m).Nodup) : (dictKeys (syncUpdate m k v)).Nodup := by
  unfold syncUpdate
  split_ifs with hk
  · rw [dictKeys_map_merge]
    exact h
  · have hkeys : dictKeys (m ++ [(k, v)]) = dictKeys m ++ [k] := by simp [dictKeys]
    rw [hkeys, List.nodup_append]
    refine ⟨h, List.nodup_singleton k, fun x hx hxk => ?_⟩
    simp only [List.mem_singleton] at hxk
    subst hxk
    exact hk hx

/-- The whole broker-sync fold preserves key uniqueness. -/
theorem nodup_dictKeys_syncFold (broker_positions : List (String × Position))
    (m : List (String × Position)) (h : (dictKeys m).Nodup) :
    (dictKeys (broker_positions.foldl (fun acc sp => syncUpdate acc sp.1 sp.2) m)).Nodup := by
  induction broker_positions generalizing m with
  | nil => exact h
  | cons b t ih => exact ih _ (nodup_dictKeys_syncUpdate _ _ _ h)

/-- Filtering the positions map preserves key uniqueness. -/
theorem nodup_dictKeys_filter (m : List (String × Position)) (g : String × Position → Bool)
    (h : (dictKeys m).Nodup) : (dictKeys (m.filter g)).Nodup := by
  have hs : (m.filter g).Sublist m := List.filter_sublist m
  exact List.Nodup.sublist (hs.map Prod.fst) h

/-- C8 counterexample: the periodic broker sync adopts every external
position with no bound check — syncing three broker positions into
an empty map yields 3 open positions, exceeding
`Config.MAX_POSITIONS = 2`. -/
theorem sync_adopts_beyond_max_positions :
    (syncStep []
        [("GOLDBEES-EQ", sampleExternalPosition),
         ("SILVERBEES-EQ", sampleExternalPosition),
         ("NIFTYBEES-EQ", sampleExternalPosition)]).length = 3 ∧
    MAX_POSITIONS < 3 := by
  constructor
  · rfl
  · decide

/-- C8 (amended): every path that touches the positions map preserves
"at most one Position per symbol" (the key list stays duplicate-free:
both the FLAT→OPEN entry path and the periodic broker sync), and the
FLAT→OPEN entry path preserves the bound
`total open positions ≤ MAX_POSITIONS`; the broker sync, however,
adopts external positions without any bound check (see the
counterexample), so only the entry path maintains the bound. -/
theorem positions_map_invariants (positions : List (String × Position)) (symbol : String)
    (signal_is_buy gates_approve order_ok : Bool) (new_pos : Position)
    (broker_positions : List (String × Position))
    (hnd : (dictKeys positions).Nodup) :
    (dictKeys (entryStep positions symbol signal_is_buy gates_approve order_ok new_pos)).Nodup ∧
    (positions.length ≤ MAX_POSITIONS →
      (entryStep positions symbol signal_is_buy gates_approve order_ok new_pos).length ≤
        MAX_POSITIONS) ∧
    (dictKeys (syncStep positions broker_positions)).Nodup := by
  refine ⟨?_, ?_, ?_⟩
  · unfold entryStep
    split_ifs with h1 h2 h3 h4
    any_goals exact hnd
    have hkeys : dictKeys (positions ++ [(symbol, new_pos)]) = dictKeys positions ++ [symbol] := by
      simp [dictKeys]
    rw [hkeys, List.nodup_append]
    refine ⟨hnd, List.nodup_singleton symbol, fun x hx hxs => ?_⟩
    simp only [List.mem_singleton] at hxs
    subst hxs
    exact h1 hx
  · intro hlen
    unfold entryStep
    split_ifs with h1 h2 h3 h4
    any_goals exact hlen
    rw [List.length_append]
    simp only [List.length_singleton]
    omega
  · unfold syncStep
    exact nodup_dictKeys_filter _ _ (nodup_dictKeys_syncFold _ _ hnd)

/-- Witness for C8: starting from the empty map, one entry and one
(empty) sync preserve both invariants. -/
theorem positions_map_invariants_witness :
    (dictKeys (entryStep [] "GOLDBEES-EQ" true true true sampleExternalPosition)).Nodup ∧
    (entryStep [] "GOLDBEES-EQ" true true true sampleExternalPosition).length ≤
      MAX_POSITIONS ∧
    (dictKeys (syncStep [] [])).Nodup :=
  have h := positions_map_invariants [] "GOLDBEES-EQ" true true true
    sampleExternalPosition [] (by simp [dictKeys])
  ⟨h.1, h.2.1 (by simp), h.2.2⟩

/-- C3: on a trade history of 10 closed trades that are all losses
(each pnl = −10) the statistics have `avg_win = 0`, hence payoff ratio
`b = 0`, and `calculate_kelly_fraction` evaluates `(p * b - q) / b`,
raising `ZeroDivisionError` (modelled by `none`) instead of returning a
clamped finite fraction. -/
theorem kelly_all_losses_raises :
    calculateKellyFraction (getTradeStatistics (List.replicate 10 (-10 : ℚ))) = none := by
  norm_num [getTradeStatistics, calculateKellyFraction, minTradesForKelly, List.replicate]

end Tradex
